import Mathlib

/-!
Verification development for the naver-estate-bot pipeline core:
the price-string parser (`src/scraper.py`, `_parse_korean_price` /
`_parse_price_field`) and the delta summarizer (`src/main.py`,
`compute_summary`).

Modelling conventions (shallow embedding of the Python source):
* Python `str` is Lean `String`; string primitives (`strip`,
  `replace`, `split`, `isdigit`, `int(...)`) are modelled by
  structural recursion on the underlying character list, so every
  definition evaluates inside the kernel.  Python's `strip` and
  `isdigit` cover a few more Unicode characters than the model; the
  model notes the one case where that matters (`isNonDecimalDigit`).
* Python `int` is Lean `Int` (arbitrary precision in both).
* Python `float` is modelled by exact rationals `ℚ`: the code only
  performs a handful of arithmetic operations on averages, and the
  claims are about the exact arithmetic structure, not IEEE rounding.
* Code that can raise an exception is modelled with `Option`:
  `none` means the Python code raises.
-/

/-- Model of Python `str.strip()`: drop leading and trailing
whitespace (Python also strips some rarer Unicode space characters). -/
def pyStrip (xs : List Char) : List Char :=
  ((xs.dropWhile Char.isWhitespace).reverse.dropWhile Char.isWhitespace).reverse

/-- Model of Python `s.split(c)` for a single-character separator:
always returns at least one (possibly empty) segment, one more
segment per separator occurrence. -/
def splitOnChar (c : Char) : List Char → List (List Char)
  | [] => [[]]
  | x :: xs =>
    match splitOnChar c xs with
    | [] => [[]]
    | seg :: rest => if x = c then [] :: seg :: rest else (x :: seg) :: rest

/-- Decimal value of a digit list (used only on all-digit lists). -/
def digitsVal (xs : List Char) : Nat :=
  xs.foldl (fun n c => 10 * n + (c.toNat - 48)) 0

/-- Model of Python `int(s)`: optional surrounding whitespace, an
optional single sign, then one or more decimal digits.  `none` models
`int` raising `ValueError`.  (Python additionally accepts underscores
between digits and non-ASCII Unicode decimal digits; those are
outside this model.) -/
def pyInt? (xs : List Char) : Option Int :=
  match pyStrip xs with
  | '-' :: ds => if ds ≠ [] ∧ ds.all Char.isDigit then some (-(digitsVal ds : Int)) else none
  | '+' :: ds => if ds ≠ [] ∧ ds.all Char.isDigit then some ((digitsVal ds : Int)) else none
  | ds => if ds ≠ [] ∧ ds.all Char.isDigit then some ((digitsVal ds : Int)) else none

/-- Characters that satisfy Python `str.isdigit` without being
accepted by Python `int()`: `str.isdigit` is true for any character
with Unicode `Numeric_Type=Digit`, e.g. the superscripts `¹`, `²`,
`³`, while `int()` accepts only `Numeric_Type=Decimal` digits.  The
model carries the three superscripts as representatives of this
(larger) class. -/
def isNonDecimalDigit (c : Char) : Bool :=
  c = '¹' ∨ c = '²' ∨ c = '³'

/-- Model of Python `s.isdigit()`: non-empty and every character a
digit in the Unicode sense (decimal digits plus the
digit-but-not-decimal class, see `isNonDecimalDigit`). -/
def pyIsDigit (xs : List Char) : Bool :=
  xs ≠ [] && xs.all (fun c => c.isDigit || isNonDecimalDigit c)

/-- `s.strip().replace(",", "").replace(" ", "")` — removing every
occurrence of a single character is a filter. -/
def cleanPrice (xs : List Char) : List Char :=
  (pyStrip xs).filter (fun c => c ≠ ',' && c ≠ ' ')

/-- Embedding of `_parse_korean_price` (src/scraper.py lines 39–59),
on the cleaned character list.

```python
s = s.strip().replace(",", "").replace(" ", "")
if not s: return 0
if "억" in s:
    parts = s.split("억")
    eok = int(parts[0]) * 10000
    remainder = int(parts[1]) if parts[1].isdigit() and parts[1] else 0
    return eok + remainder
try: return int(s)
except ValueError: return 0
```

`"억" in s` holds exactly when `split` yields at least two segments,
so the two Python branches are the two `match` arms.  `none` models
an uncaught `ValueError` (possible from `int(parts[0])`, and from
`int(parts[1])` when `parts[1].isdigit()` holds for a non-decimal
digit). -/
def parseKoreanPriceL (xs : List Char) : Option Int :=
  let s := cleanPrice xs
  if s = [] then some 0
  else
    match splitOnChar '억' s with
    | p0 :: p1 :: _ =>
      match pyInt? p0 with
      | none => none
      | some a =>
        if pyIsDigit p1 then
          match pyInt? p1 with
          | none => none
          | some r => some (a * 10000 + r)
        else some (a * 10000)
    | _ =>
      match pyInt? s with
      | some n => some n
      | none => some 0

/-- `_parse_korean_price` on a Python `str`. -/
def parseKoreanPrice (s : String) : Option Int :=
  parseKoreanPriceL s.data

/-- Embedding of `_parse_price_field` (src/scraper.py lines 62–74).

```python
raw = (raw or "").strip()
if trade_type == "B2" and "/" in raw:
    parts = raw.split("/", 1)
    return _parse_korean_price(parts[0]), _parse_korean_price(parts[1])
return _parse_korean_price(raw), 0
```

`split("/", 1)` splits at the first `/` only: the part before it and
everything after it. -/
def parsePriceField (raw : String) (tradeType : String) : Option (Int × Int) :=
  let r := pyStrip raw.data
  if tradeType = "B2" ∧ '/' ∈ r then
    let before := r.takeWhile (fun c => c ≠ '/')
    let after := (r.dropWhile (fun c => c ≠ '/')).tail
    do
      let deposit ← parseKoreanPriceL before
      let monthly ← parseKoreanPriceL after
      pure (deposit, monthly)
  else do
    let p ← parseKoreanPriceL r
    pure (p, 0)



/-- The marker-path contract exactly as claim/spec words it
(*refinement reference, written from the spec, not from the code*):
split the cleaned input on the marker into exactly two segments (i.e.
at the first occurrence), parse the first as an integer and multiply
by 10000, add the second as-is when it is non-empty and all-digit
(0 otherwise), monthly rent 0. -/
def specMarkerPrice (s : String) : Option Int :=
  let c := cleanPrice s.data
  let seg0 := c.takeWhile (fun ch => ch ≠ '억')
  let seg1 := (c.dropWhile (fun ch => ch ≠ '억')).tail
  match pyInt? seg0 with
  | none => none
  | some a =>
    some (a * 10000 +
      (if seg1 ≠ [] ∧ seg1.all Char.isDigit then ((digitsVal seg1 : Nat) : Int) else 0))

/-- Embedding of the `Listing` dataclass (src/models.py).  `area_m2`
is a Python `float`, modelled as `ℚ`. -/
structure Listing where
  listing_id : String
  complex_id : String
  trade_type : String
  date : String
  price : Int
  monthly_rent : Int
  area_m2 : ℚ
  floor : Int
  total_floors : Int
  direction : String
  article_name : String
  agent_name : String
  confirmed_type : String
  description : String := ""
  tags : String := ""
deriving DecidableEq, Repr

/-- A cell value as read back from the spreadsheet: `gspread` returns
strings for text cells and `int` for integer numeric cells (float
cells are out of the model's scope). -/
inductive CellVal where
  | str (v : String)
  | int (v : Int)
deriving DecidableEq, Repr

/-- Model of a yesterday row (`dict` from
`worksheet.get_all_records()`).  `compute_summary` reads only the
`listing_id` and `price` keys, so only those are modelled; `none`
means the key is absent (`dict.get` returns `None`). -/
structure PersistedRow where
  listing_id : Option CellVal := none
  price : Option CellVal := none
deriving DecidableEq, Repr

/-- Python truthiness of a cell value: `""` and `0` are falsy. -/
def CellVal.truthy : CellVal → Bool
  | .str v => v ≠ ""
  | .int v => v ≠ 0

/-- Python truthiness of `dict.get(key)`: `None` (missing key) is
falsy. -/
def truthyOpt : Option CellVal → Bool
  | none => false
  | some v => v.truthy

/-- Python `str(n)` for an `int`: decimal digits with a leading `-`
for negatives (kernel-computable rendering). -/
def pyStrOfInt (n : Int) : List Char :=
  match n with
  | .ofNat m => Nat.toDigits 10 m
  | .negSucc m => '-' :: Nat.toDigits 10 (m + 1)

/-- Python `str(v)` for a cell value. -/
def CellVal.pyStr : CellVal → String
  | .str v => v
  | .int v => ⟨pyStrOfInt v⟩

/-- Embedding of the `ComplexSummary` dataclass (src/models.py).
Float fields are modelled as `ℚ`; count fields are `Nat` (they are
`len`s and set cardinalities in the source). -/
structure ComplexSummary where
  complex_id : String
  date : String
  trade_type : String
  total_listings : Nat := 0
  new_listings : Nat := 0
  removed_listings : Nat := 0
  avg_price : ℚ := 0
  avg_price_change : ℚ := 0
  avg_price_change_pct : ℚ := 0
  min_price : Int := 0
  min_price_change : Int := 0
  lowest_listing : String := ""
deriving DecidableEq, Repr

/-- `today_ids = {l.listing_id for l in today_listings}` -/
def todayIds (todayListings : List Listing) : Finset String :=
  (todayListings.map (·.listing_id)).toFinset

/-- `yesterday_ids = {str(r.get("listing_id", "")) for r in
yesterday_rows if r.get("listing_id")}` — rows whose `listing_id` is
missing or falsy are excluded. -/
def yesterdayIds (yesterdayRows : List PersistedRow) : Finset String :=
  ((yesterdayRows.filter (fun r => truthyOpt r.listing_id)).map
    (fun r => ((r.listing_id.getD (CellVal.str "")).pyStr))).toFinset

/-- `new_listings = len(today_ids - yesterday_ids)` -/
def newCount (todayListings : List Listing) (yesterdayRows : List PersistedRow) : Nat :=
  (todayIds todayListings \ yesterdayIds yesterdayRows).card

/-- `removed_listings = len(yesterday_ids - today_ids)` -/
def removedCount (todayListings : List Listing) (yesterdayRows : List PersistedRow) : Nat :=
  (yesterdayIds yesterdayRows \ todayIds todayListings).card

/-- `today_prices = [l.price for l in today_listings if l.price > 0]` -/
def todayPrices (todayListings : List Listing) : List Int :=
  (todayListings.filter (fun l => 0 < l.price)).map (·.price)

/-- Today's listings with a positive price — the sub-population that
(per the claim) alone determines `avg_price`, `min_price` and
`lowest_listing`. -/
def filterPos (todayListings : List Listing) : List Listing :=
  todayListings.filter (fun l => 0 < l.price)

/-- Reference selection function for the cheapest listing, written
from the claim's words: the first-seen strictly-cheapest listing of a
list (earlier element wins ties). -/
def leftmostMin : List Listing → Option Listing
  | [] => none
  | l :: ls =>
    match leftmostMin ls with
    | none => some l
    | some m => if l.price ≤ m.price then some l else some m

/-- How an accumulator value and the scan result of the remaining
list combine in the cheapest-listing fold (proof device for
`lowestOf`). -/
def combineLow (acc r : Option Listing) : Option Listing :=
  match acc, r with
  | acc, none => acc
  | none, some m => some m
  | some a, some m => if m.price < a.price then some m else some a

/-- `sum(prices) / len(prices) if prices else 0.0` (exact rational in
place of the Python float division). -/
def avgOf (prices : List Int) : ℚ :=
  if prices = [] then 0 else (prices.sum : ℚ) / (prices.length : ℚ)

/-- `min(prices) if prices else 0` -/
def minOf (prices : List Int) : Int :=
  (prices.min?).getD 0

/-- One row of the yesterday-price list comprehension
`[int(r.get("price", 0)) for r in yesterday_rows if r.get("price")
and str(r["price"]).isdigit() and int(r["price"]) > 0]`:
* outer `none`: evaluating the guard raises (`int` on a string that
  passes `isdigit` with a non-decimal digit);
* `some none`: the row is filtered out;
* `some (some n)`: the row contributes `n`. -/
def rowPrice? (r : PersistedRow) : Option (Option Int) :=
  match r.price with
  | none => some none
  | some v =>
    if v.truthy then
      if pyIsDigit v.pyStr.data then
        match pyInt? v.pyStr.data with
        | none => none
        | some n => if 0 < n then some (some n) else some none
      else some none
    else some none

/-- The whole yesterday-price comprehension; `none` models the
comprehension raising `ValueError` on some row. -/
def yPrices? : List PersistedRow → Option (List Int)
  | [] => some []
  | r :: rs => do
    let h ← rowPrice? r
    let t ← yPrices? rs
    pure (match h with | some n => n :: t | none => t)

/-- One step of the cheapest-listing scan
(`if l.price > 0 and (lowest is None or l.price < lowest.price)`). -/
def lowestStep (acc : Option Listing) (l : Listing) : Option Listing :=
  match acc with
  | none => if 0 < l.price then some l else none
  | some m => if 0 < l.price ∧ l.price < m.price then some l else some m

/-- `lowest` after the full scan of `today_listings`. -/
def lowestOf (todayListings : List Listing) : Option Listing :=
  todayListings.foldl lowestStep none

/-- Abstract rendering of the `ℚ` that models a Python float
(`f"{lowest.area_m2}"`): numerator, and `/denominator` when not
integral.  The claims depend only on this being a function of the
value, not on the exact decimal text Python would print. -/
def qRepr (q : ℚ) : String :=
  ⟨pyStrOfInt q.num⟩ ++ (if q.den = 1 then "" else "/" ++ (⟨pyStrOfInt (q.den : Int)⟩ : String))

/-- The `price_label` f-string: deposit/monthly for B2, price alone
otherwise. -/
def priceLabel (tradeType : String) (l : Listing) : String :=
  if tradeType = "B2" then
    (⟨pyStrOfInt l.price⟩ : String) ++ "만원/" ++ (⟨pyStrOfInt l.monthly_rent⟩ : String) ++ "만원"
  else (⟨pyStrOfInt l.price⟩ : String) ++ "만원"

/-- `lowest_str`: `""` when no valid listing exists, otherwise the
one-line f-string description. -/
def lowestStr (tradeType : String) : Option Listing → String
  | none => ""
  | some l =>
    (⟨pyStrOfInt l.floor⟩ : String) ++ "층 / " ++ qRepr l.area_m2 ++ "㎡ / "
      ++ priceLabel tradeType l ++ " / " ++ l.agent_name

/-- Round-half-to-even to an integer, Python's rounding mode. -/
def roundHalfEven (q : ℚ) : Int :=
  let f := ⌊q⌋
  let r := q - (f : ℚ)
  if r < 1/2 then f
  else if 1/2 < r then f + 1
  else if f % 2 = 0 then f else f + 1

/-- Model of Python `round(x, 1)` (on the exact-rational abstraction
of the float). -/
def pyRound1 (q : ℚ) : ℚ :=
  (roundHalfEven (q * 10) : ℚ) / 10

/-- Embedding of `compute_summary` (src/main.py lines 30–93).  The
source starts with `today = date.today().isoformat()` — a read of the
system clock — which the embedding makes explicit as the `today`
parameter.  `none` models the function raising (`ValueError` from the
yesterday-price comprehension, see `rowPrice?`). -/
def computeSummary (today : String) (complexId tradeType : String)
    (todayListings : List Listing) (yesterdayRows : List PersistedRow) :
    Option ComplexSummary := do
  let newListings := newCount todayListings yesterdayRows
  let removedListings := removedCount todayListings yesterdayRows
  let tPrices := todayPrices todayListings
  let avgPrice := avgOf tPrices
  let minPrice := minOf tPrices
  let yPrices ← yPrices? yesterdayRows
  let yAvg := avgOf yPrices
  let yMin := minOf yPrices
  let avgChange := avgPrice - yAvg
  let avgChangePct : ℚ := if yAvg = 0 then 0 else avgChange / yAvg * 100
  let minChange := minPrice - yMin
  let lowest := lowestOf todayListings
  pure
    { complex_id := complexId
      date := today
      trade_type := tradeType
      total_listings := todayListings.length
      new_listings := newListings
      removed_listings := removedListings
      avg_price := avgPrice
      avg_price_change := avgChange
      avg_price_change_pct := pyRound1 avgChangePct
      min_price := minPrice
      min_price_change := minChange
      lowest_listing := lowestStr tradeType lowest }

/-- A listing template for concrete test inputs. -/
def mkL (id : String) (price : Int) : Listing :=
  { listing_id := id, complex_id := "c1", trade_type := "A1", date := "2026-10-11"
    price := price, monthly_rent := 0, area_m2 := 84, floor := 5, total_floors := 15
    direction := "남향", article_name := "래미안", agent_name := "하나부동산"
    confirmed_type := "중개사확인" }

/-- The summary produced for empty inputs (used as a concrete test
value). -/
def emptySummary : ComplexSummary :=
  { complex_id := "c1", date := "2026-10-12", trade_type := "A1" }

/-- Concrete test input — the scenario of spec section 8, item 5: two
listings today, two rows yesterday, one overlapping id. -/
def scenarioL : List Listing := [mkL "1" 100, mkL "2" 200]

/-- Yesterday rows for the scenario. -/
def scenarioR : List PersistedRow :=
  [⟨some (.str "2"), some (.str "150")⟩, ⟨some (.str "3"), some (.int 300)⟩]

/-- The summary the scenario must produce. -/
def scenarioS : ComplexSummary :=
  { complex_id := "c1", date := "2026-10-12", trade_type := "A1"
    total_listings := 2, new_listings := 1, removed_listings := 1
    avg_price := 150, avg_price_change := -75, avg_price_change_pct := -333/10
    min_price := 100, min_price_change := -50
    lowest_listing := "5층 / 84㎡ / 100만원 / 하나부동산" }

/-- The scenario listings with a zero-price (unparsed-price) listing
prepended — the price statistics must not change. -/
def scenarioLZ : List Listing := mkL "z" 0 :: scenarioL

/-- Summary for `scenarioLZ`: only the two count fields that see the
extra listing differ from `scenarioS`. -/
def scenarioSZ : ComplexSummary :=
  { scenarioS with total_listings := 3, new_listings := 2 }

/-- The summary record `compute_summary` builds once the
yesterday-price comprehension has produced `yp` (the only fallible
step); factoring it out lets every claim reason field-wise. -/
def summaryOf (today complexId tradeType : String) (todayListings : List Listing)
    (yesterdayRows : List PersistedRow) (yp : List Int) : ComplexSummary :=
  { complex_id := complexId
    date := today
    trade_type := tradeType
    total_listings := todayListings.length
    new_listings := newCount todayListings yesterdayRows
    removed_listings := removedCount todayListings yesterdayRows
    avg_price := avgOf (todayPrices todayListings)
    avg_price_change := avgOf (todayPrices todayListings) - avgOf yp
    avg_price_change_pct :=
      pyRound1 (if avgOf yp = 0 then 0
        else (avgOf (todayPrices todayListings) - avgOf yp) / avgOf yp * 100)
    min_price := minOf (todayPrices todayListings)
    min_price_change := minOf (todayPrices todayListings) - minOf yp
    lowest_listing := lowestStr tradeType (lowestOf todayListings) }

theorem computeSummary_eq (today complexId tradeType : String)
    (todayListings : List Listing) (yesterdayRows : List PersistedRow) :
    computeSummary today complexId tradeType todayListings yesterdayRows
      = (yPrices? yesterdayRows).map
          (summaryOf today complexId tradeType todayListings yesterdayRows) := by
  unfold computeSummary summaryOf
  cases yPrices? yesterdayRows <;> rfl

theorem computeSummary_some (today complexId tradeType : String)
    (todayListings : List Listing) (yesterdayRows : List PersistedRow)
    (yp : List Int) (h : yPrices? yesterdayRows = some yp) :
    computeSummary today complexId tradeType todayListings yesterdayRows
      = some (summaryOf today complexId tradeType todayListings yesterdayRows yp) := by
  rw [computeSummary_eq, h, Option.map]

theorem computeSummary_inv (today complexId tradeType : String)
    (todayListings : List Listing) (yesterdayRows : List PersistedRow)
    (s : ComplexSummary)
    (h : computeSummary today complexId tradeType todayListings yesterdayRows = some s) :
    ∃ yp, yPrices? yesterdayRows = some yp
      ∧ s = summaryOf today complexId tradeType todayListings yesterdayRows yp := by
  rw [computeSummary_eq] at h
  cases hy : yPrices? yesterdayRows with
  | none => rw [hy] at h; exact absurd h (by simp [Option.map])
  | some yp =>
    rw [hy] at h
    simp only [Option.map, Option.some.injEq] at h
    exact ⟨yp, rfl, h.symm⟩

theorem pyRound1_zero : pyRound1 0 = 0 := by
  norm_num [pyRound1, roundHalfEven]

theorem avgOf_nil : avgOf [] = 0 := by
  simp [avgOf]

theorem todayPrices_eq (ls : List Listing) :
    todayPrices ls = (filterPos ls).map (·.price) := rfl

theorem mem_todayPrices_pos (ls : List Listing) : ∀ x ∈ todayPrices ls, 0 < x := by
  intro x hx
  obtain ⟨l, hl, rfl⟩ := List.mem_map.mp hx
  have := List.mem_filter.mp hl
  simpa using this.2

theorem toDigitsCore_ne_nil (b fuel n : Nat) (ds : List Char) (h : ds ≠ []) :
    Nat.toDigitsCore b fuel n ds ≠ [] := by
  induction fuel generalizing n ds with
  | zero => simpa [Nat.toDigitsCore] using h
  | succ fuel ih =>
    simp only [Nat.toDigitsCore]
    split
    · simp
    · exact ih _ _ (by simp)

theorem toDigitsCore_succ_ne_nil (b fuel n : Nat) (ds : List Char) :
    Nat.toDigitsCore b (fuel + 1) n ds ≠ [] := by
  simp only [Nat.toDigitsCore]
  split
  · simp
  · exact toDigitsCore_ne_nil _ _ _ _ (by simp)

theorem toDigits_ne_nil (b n : Nat) : Nat.toDigits b n ≠ [] :=
  toDigitsCore_succ_ne_nil b n n []

theorem pyStrOfInt_ne_nil (n : Int) : pyStrOfInt n ≠ [] := by
  cases n with
  | ofNat m => exact toDigits_ne_nil 10 m
  | negSucc m => simp [pyStrOfInt]

theorem truthy_pyStr_ne_empty (v : CellVal) (h : v.truthy = true) : v.pyStr ≠ "" := by
  cases v with
  | str s => simpa [CellVal.truthy, CellVal.pyStr] using h
  | int n =>
    simp only [CellVal.pyStr]
    intro hc
    exact pyStrOfInt_ne_nil n (congrArg String.data hc)

theorem lowestStep_nonpos (acc : Option Listing) (l : Listing) (h : ¬ 0 < l.price) :
    lowestStep acc l = acc := by
  cases acc <;> simp [lowestStep, h]

theorem foldl_lowestStep (ls : List Listing) (acc : Option Listing) :
    ls.foldl lowestStep acc = combineLow acc (leftmostMin (filterPos ls)) := by
  induction ls generalizing acc with
  | nil => cases acc <;> rfl
  | cons l ls ih =>
    by_cases hp : 0 < l.price
    · have hf : filterPos (l :: ls) = l :: filterPos ls := by simp [filterPos, hp]
      rw [List.foldl_cons, ih, hf]
      cases acc with
      | none =>
        simp only [lowestStep, if_pos hp, leftmostMin]
        cases hR : leftmostMin (filterPos ls) with
        | none => rfl
        | some m =>
          simp only [combineLow]
          split_ifs <;> first | rfl | omega
      | some a =>
        simp only [lowestStep, hp, true_and, leftmostMin]
        cases hR : leftmostMin (filterPos ls) with
        | none => simp only [combineLow]
        | some m =>
          split_ifs <;> simp only [combineLow] <;> (try split_ifs) <;>
            (try simp only [combineLow]) <;> (try split_ifs) <;> first | rfl | omega
    · have hf : filterPos (l :: ls) = filterPos ls := by simp [filterPos, hp]
      rw [List.foldl_cons, lowestStep_nonpos acc l hp, ih, hf]

theorem lowestOf_eq (ls : List Listing) : lowestOf ls = leftmostMin (filterPos ls) := by
  rw [lowestOf, foldl_lowestStep]
  cases leftmostMin (filterPos ls) <;> rfl

example : parseKoreanPrice "15억" = some 150000 := by decide
example : parseKoreanPrice "15억 5000" = some 155000 := by decide
example : parseKoreanPrice "5,000" = some 5000 := by decide
example : parseKoreanPrice "" = some 0 := by decide
example : parseKoreanPrice "garbage" = some 0 := by decide
example : parseKoreanPrice "억" = none := by decide
example : parseKoreanPrice "-5" = some (-5) := by decide
example : parseKoreanPrice "5억-3" = some 50000 := by decide
example : parseKoreanPrice "1억2억3" = some 10002 := by decide
example : parseKoreanPrice "5억²" = none := by decide
example : parsePriceField "5,000/50" "B2" = some (5000, 50) := by decide
example : parsePriceField "5,000/50" "A1" = some (0, 0) := by decide
example : parsePriceField "15억" "A1" = some (150000, 0) := by decide
example : parsePriceField "a/b/c" "B2" = some (0, 0) := by decide

theorem computeSummary_empty :
    computeSummary "2026-10-12" "c1" "A1" [] [] = some emptySummary := by
  rw [computeSummary_some _ _ _ _ _ [] (by decide)]
  have h0 : todayPrices ([] : List Listing) = [] := rfl
  simp only [summaryOf, h0, avgOf_nil, emptySummary, ComplexSummary.mk.injEq]
  norm_num [pyRound1_zero]
  decide

theorem computeSummary_scenario :
    computeSummary "2026-10-12" "c1" "A1" scenarioL scenarioR = some scenarioS := by
  rw [computeSummary_some _ _ _ _ _ [150, 300] (by decide)]
  have ht : todayPrices scenarioL = [100, 200] := by decide
  have h1 : avgOf [100, 200] = 150 := by simp [avgOf]; norm_num
  have h2 : avgOf [150, 300] = 225 := by simp [avgOf]; norm_num
  have h3 : pyRound1 (-(100/3) : ℚ) = -(333/10) := by
    norm_num [pyRound1, roundHalfEven]
  simp only [summaryOf, scenarioS, ComplexSummary.mk.injEq, ht, h1, h2]
  norm_num [h3]
  decide

theorem computeSummary_scenarioZ :
    computeSummary "2026-10-12" "c1" "A1" scenarioLZ scenarioR = some scenarioSZ := by
  rw [computeSummary_some _ _ _ _ _ [150, 300] (by decide)]
  have ht : todayPrices scenarioLZ = [100, 200] := by decide
  have h1 : avgOf [100, 200] = 150 := by simp [avgOf]; norm_num
  have h2 : avgOf [150, 300] = 225 := by simp [avgOf]; norm_num
  have h3 : pyRound1 (-(100/3) : ℚ) = -(333/10) := by
    norm_num [pyRound1, roundHalfEven]
  simp only [summaryOf, scenarioSZ, scenarioS, ComplexSummary.mk.injEq, ht, h1, h2]
  norm_num [h3]
  decide

/-- C1: the claim states that for every input string and trade type,
`parse_price` returns without raising and never returns a negative
component.  The embedded code refutes this: on `"억"` (a bare marker)
`int(parts[0])` receives `""` and raises `ValueError` (modelled
`none`); on `"5억²"` the remainder passes `isdigit` but `int` raises;
and on `"-5"` the plain path returns the negative value `-5`. -/
theorem parse_price_crash_cases :
    parsePriceField "억" "A1" = none ∧
    parseKoreanPrice "억" = none ∧
    parseKoreanPrice "abc억5000" = none ∧
    parseKoreanPrice "5억²" = none ∧
    parsePriceField "-5" "A1" = some (-5, 0) := by decide

/-- C4 counterexample: the claim says a marker input is split into
exactly two segments.  On `"1억2억3"` the code splits on *every*
marker occurrence and adds the middle segment `"2"`, returning
`10002`, whereas the claim's two-segment reading (`"1"` and `"2억3"`,
the latter not all-digit) yields `10000`. -/
theorem parse_marker_split_cex :
    parsePriceField "1억2억3" "A1" = some (10002, 0) ∧
    specMarkerPrice "1억2억3" = some 10000 ∧
    (specMarkerPrice "1억2억3").map (fun p => (p, 0)) ≠ parsePriceField "1억2억3" "A1" := by
  decide

/-- C4 (amended): outside the B2-with-separator path, when the
cleaned input contains the large-unit marker the code splits on every
occurrence and uses the first two segments: the first is parsed by
`int` (raising when unparsable, e.g. empty) and multiplied by 10000;
the second is added as-is when it is non-empty all-digit text (0
otherwise, raising when it is digit text that `int` rejects); monthly
rent is 0.  The claim's concrete examples all hold. -/
theorem parse_marker_split_amended :
    (∀ (xs p0 p1 : List Char) (rest : List (List Char)),
      cleanPrice xs ≠ [] →
      splitOnChar '억' (cleanPrice xs) = p0 :: p1 :: rest →
      parseKoreanPriceL xs =
        match pyInt? p0 with
        | none => none
        | some a =>
          if pyIsDigit p1 then (pyInt? p1).map (fun r => a * 10000 + r)
          else some (a * 10000)) ∧
    (∀ raw tt : String, ¬(tt = "B2" ∧ '/' ∈ pyStrip raw.data) →
      parsePriceField raw tt = (parseKoreanPriceL (pyStrip raw.data)).map (fun p => (p, 0))) ∧
    parsePriceField "15억" "A1" = some (150000, 0) ∧
    parsePriceField "15억 5000" "A1" = some (155000, 0) ∧
    parsePriceField "5,000" "A1" = some (5000, 0) ∧
    parsePriceField "" "A1" = some (0, 0) := by
  refine ⟨?_, ?_, by decide, by decide, by decide, by decide⟩
  · intro xs p0 p1 rest hne hsplit
    simp only [parseKoreanPriceL, hsplit, if_neg hne]
    cases pyInt? p0 with
    | none => rfl
    | some a =>
      by_cases hd : pyIsDigit p1
      · simp only [if_pos hd]
        cases pyInt? p1 <;> rfl
      · simp only [if_neg hd]
  · intro raw tt hno
    simp only [parsePriceField, if_neg hno]
    cases parseKoreanPriceL (pyStrip raw.data) <;> rfl

/-- C4 amended-claim witness at `"15억 5000"`. -/
theorem parse_marker_split_amended_w :
    parsePriceField "15억 5000" "A1"
      = (parseKoreanPriceL (pyStrip "15억 5000".data)).map (fun p => (p, 0)) :=
  parse_marker_split_amended.2.1 "15억 5000" "A1" (by decide)

/-- C5: for trade type B2 with the separator present, `parse_price`
splits at the first separator and parses the two parts independently
(`("5,000/50", B2) = (5000, 50)`); for any other trade type, and for
B2 input without a separator, the monthly-rent component of any
returned pair is 0. -/
theorem parse_b2_split :
    (∀ raw : String, '/' ∈ pyStrip raw.data →
      parsePriceField raw "B2" =
        do
          let d ← parseKoreanPriceL ((pyStrip raw.data).takeWhile (fun c => c ≠ '/'))
          let m ← parseKoreanPriceL (((pyStrip raw.data).dropWhile (fun c => c ≠ '/')).tail)
          pure (d, m)) ∧
    (∀ (raw tt : String) (p m : Int), tt ≠ "B2" →
      parsePriceField raw tt = some (p, m) → m = 0) ∧
    (∀ (raw : String) (p m : Int), '/' ∉ pyStrip raw.data →
      parsePriceField raw "B2" = some (p, m) → m = 0) ∧
    parsePriceField "5,000/50" "B2" = some (5000, 50) := by
  refine ⟨?_, ?_, ?_, by decide⟩
  · intro raw h
    simp only [parsePriceField]
    rw [if_pos (show True ∧ '/' ∈ pyStrip raw.data from ⟨trivial, h⟩)]
  · intro raw tt p m hne h
    simp only [parsePriceField,
      if_neg (show ¬(tt = "B2" ∧ '/' ∈ pyStrip raw.data) from fun hc => hne hc.1)] at h
    cases hv : parseKoreanPriceL (pyStrip raw.data) with
    | none => rw [hv] at h; simp at h
    | some v =>
      rw [hv] at h
      simp at h
      omega
  · intro raw p m hne h
    simp only [parsePriceField] at h
    rw [if_neg (show ¬(True ∧ '/' ∈ pyStrip raw.data) from fun hc => hne hc.2)] at h
    cases hv : parseKoreanPriceL (pyStrip raw.data) with
    | none => rw [hv] at h; simp at h
    | some v =>
      rw [hv] at h
      simp at h
      omega

/-- C5 witness at `"5,000/50"` (B2 path) and `("5,000/50", A1)`. -/
theorem parse_b2_split_w :
    parsePriceField "5,000/50" "B2" =
      (do
        let d ← parseKoreanPriceL ((pyStrip "5,000/50".data).takeWhile (fun c => c ≠ '/'))
        let m ← parseKoreanPriceL (((pyStrip "5,000/50".data).dropWhile (fun c => c ≠ '/')).tail)
        pure (d, m)) ∧ (0 : Int) = 0 :=
  ⟨parse_b2_split.1 "5,000/50" (by decide),
    parse_b2_split.2.1 "5,000/50" "A1" 0 0 (by decide) (by decide)⟩

/-- C2 counterexample: `compute_summary` begins with
`today = date.today().isoformat()` — a read of the system clock, made
explicit as the `today` parameter of the embedding.  Two calls with
identical arguments made on different clock dates differ in the
`date` field, so the output — in particular the `date` field — is not
determined by the four arguments alone. -/
theorem summary_pure_cex :
    computeSummary "2026-10-11" "c1" "A1" [] []
      ≠ computeSummary "2026-10-12" "c1" "A1" [] [] ∧
    (computeSummary "2026-10-11" "c1" "A1" [] []).map (·.date) = some "2026-10-11" ∧
    (computeSummary "2026-10-12" "c1" "A1" [] []).map (·.date) = some "2026-10-12" := by
  refine ⟨?_, by decide, by decide⟩
  intro h
  have := congrArg (Option.map (·.date)) h
  rw [show (computeSummary "2026-10-11" "c1" "A1" [] []).map (·.date) = some "2026-10-11"
    from by decide] at this
  rw [show (computeSummary "2026-10-12" "c1" "A1" [] []).map (·.date) = some "2026-10-12"
    from by decide] at this
  simp at this

/-- C2 (amended): all fields of the result other than `date` are
determined by the four arguments alone; `date` equals the clock date
read at call time, so two calls with identical arguments on the same
date give identical output, and on any dates give outputs that agree
on every field except `date`. -/
theorem summary_pure_amended :
    ∀ (t₁ t₂ cid tt : String) (ls : List Listing) (rows : List PersistedRow)
      (s₁ s₂ : ComplexSummary),
      computeSummary t₁ cid tt ls rows = some s₁ →
      computeSummary t₂ cid tt ls rows = some s₂ →
      s₁.date = t₁ ∧ s₂.date = t₂ ∧ s₁ = { s₂ with date := t₁ } ∧
      (t₁ = t₂ → s₁ = s₂) := by
  intro t₁ t₂ cid tt ls rows s₁ s₂ h₁ h₂
  obtain ⟨yp₁, hy₁, rfl⟩ := computeSummary_inv _ _ _ _ _ _ h₁
  obtain ⟨yp₂, hy₂, rfl⟩ := computeSummary_inv _ _ _ _ _ _ h₂
  obtain rfl : yp₁ = yp₂ := Option.some.inj (hy₁.symm.trans hy₂)
  exact ⟨rfl, rfl, rfl, fun ht => by rw [ht]⟩

/-- C2 amended-claim witness: two calls on the same date with the
empty inputs. -/
theorem summary_pure_amended_w :
    emptySummary.date = "2026-10-12" ∧ emptySummary.date = "2026-10-12" ∧
      emptySummary = { emptySummary with date := "2026-10-12" } ∧
      ("2026-10-12" = "2026-10-12" → emptySummary = emptySummary) :=
  summary_pure_amended "2026-10-12" "2026-10-12" "c1" "A1" [] [] emptySummary emptySummary
    computeSummary_empty computeSummary_empty

/-- C3: the claim says `compute_summary` is total over arbitrary
yesterday rows.  A row whose price field is the superscript digit
`"²"` refutes it: Python `str.isdigit` accepts `"²"` so the guard
passes, but `int("²")` then raises `ValueError` — the embedded code
yields `none` (an uncaught exception), not a summary. -/
theorem summary_superscript_crash :
    computeSummary "2026-10-12" "c1" "A1" [] [⟨none, some (.str "²")⟩] = none ∧
    CellVal.truthy (.str "²") = true ∧
    pyIsDigit ("²".data) = true ∧
    pyInt? ("²".data) = none := by decide

/-- C6: writing `T` for today's id set and `Y` for yesterday's id set
(empty/missing ids excluded, values coerced to string), the returned
counts satisfy `new + |T ∩ Y| = |T|` and `removed + |T ∩ Y| = |Y|`,
and both counts depend only on set membership — they are invariant
under permuting either input list. -/
theorem summary_set_difference :
    ∀ (t cid tt : String) (ls ls' : List Listing) (rows rows' : List PersistedRow)
      (s : ComplexSummary),
      computeSummary t cid tt ls rows = some s →
      (s.new_listings = newCount ls rows ∧ s.removed_listings = removedCount ls rows) ∧
      (s.new_listings + (todayIds ls ∩ yesterdayIds rows).card = (todayIds ls).card ∧
        s.removed_listings + (todayIds ls ∩ yesterdayIds rows).card
          = (yesterdayIds rows).card) ∧
      (ls.Perm ls' → rows.Perm rows' →
        newCount ls rows = newCount ls' rows'
          ∧ removedCount ls rows = removedCount ls' rows') := by
  intro t cid tt ls ls' rows rows' s h
  obtain ⟨yp, hy, rfl⟩ := computeSummary_inv _ _ _ _ _ _ h
  refine ⟨⟨rfl, rfl⟩, ⟨?_, ?_⟩, ?_⟩
  · exact Finset.card_sdiff_add_card_inter _ _
  · rw [Finset.inter_comm]
    exact Finset.card_sdiff_add_card_inter _ _
  · intro hls hrows
    have h1 : todayIds ls = todayIds ls' :=
      List.toFinset_eq_of_perm _ _ (hls.map _)
    have h2 : yesterdayIds rows = yesterdayIds rows' :=
      List.toFinset_eq_of_perm _ _ ((hrows.filter _).map _)
    constructor <;> simp [newCount, removedCount, h1, h2]

/-- C6 witness at the scenario inputs (with the listing order and the
row order of both lists reversed for the permutation part). -/
theorem summary_set_difference_w :
    (scenarioS.new_listings = newCount scenarioL scenarioR ∧
      scenarioS.removed_listings = removedCount scenarioL scenarioR) ∧
    (scenarioS.new_listings + (todayIds scenarioL ∩ yesterdayIds scenarioR).card
        = (todayIds scenarioL).card ∧
      scenarioS.removed_listings + (todayIds scenarioL ∩ yesterdayIds scenarioR).card
        = (yesterdayIds scenarioR).card) ∧
    (scenarioL.Perm scenarioL.reverse → scenarioR.Perm scenarioR.reverse →
      newCount scenarioL scenarioR = newCount scenarioL.reverse scenarioR.reverse
        ∧ removedCount scenarioL scenarioR = removedCount scenarioL.reverse scenarioR.reverse) :=
  summary_set_difference "2026-10-12" "c1" "A1" scenarioL scenarioL.reverse
    scenarioR scenarioR.reverse scenarioS computeSummary_scenario

/-- C7: with an empty yesterday snapshot the deltas degrade to
today's values and 0; in general `avg_price_change_pct` is 0 when
yesterday's average is 0 and otherwise the rounded percentage, while
`avg_price` and `avg_price_change` are returned as the exact
(unrounded) mean and difference of means. -/
theorem summary_pct_guard :
    (∀ (t cid tt : String) (ls : List Listing) (s : ComplexSummary),
      computeSummary t cid tt ls [] = some s →
      s.avg_price_change = s.avg_price ∧ s.avg_price_change_pct = 0 ∧
      s.new_listings = (todayIds ls).card ∧ s.removed_listings = 0) ∧
    (∀ (t cid tt : String) (ls : List Listing) (rows : List PersistedRow)
      (s : ComplexSummary) (yp : List Int),
      computeSummary t cid tt ls rows = some s → yPrices? rows = some yp →
      s.avg_price = avgOf (todayPrices ls) ∧
      s.avg_price_change = avgOf (todayPrices ls) - avgOf yp ∧
      (avgOf yp = 0 → s.avg_price_change_pct = 0) ∧
      (avgOf yp ≠ 0 →
        s.avg_price_change_pct
          = pyRound1 ((avgOf (todayPrices ls) - avgOf yp) / avgOf yp * 100))) := by
  constructor
  · intro t cid tt ls s h
    obtain ⟨yp, hy, rfl⟩ := computeSummary_inv _ _ _ _ _ _ h
    obtain rfl : ([] : List Int) = yp := Option.some.inj hy
    have hys : yesterdayIds [] = ∅ := rfl
    refine ⟨?_, ?_, ?_, ?_⟩
    · simp [summaryOf, avgOf_nil]
    · simp [summaryOf, avgOf_nil, pyRound1_zero]
    · simp [summaryOf, newCount, hys]
    · simp [summaryOf, removedCount, hys]
  · intro t cid tt ls rows s yp h hyp
    obtain ⟨yp', hy', rfl⟩ := computeSummary_inv _ _ _ _ _ _ h
    obtain rfl : yp' = yp := Option.some.inj (hy'.symm.trans hyp)
    refine ⟨rfl, rfl, ?_, ?_⟩
    · intro h0
      simp [summaryOf, h0, pyRound1_zero]
    · intro h0
      simp [summaryOf, h0]

/-- C7 witness: the empty-yesterday part at the scenario listings,
and the general part at the scenario inputs (yesterday average 225). -/
theorem summary_pct_guard_w :
    (scenarioS.avg_price = avgOf (todayPrices scenarioL) ∧
      scenarioS.avg_price_change = avgOf (todayPrices scenarioL) - avgOf [150, 300] ∧
      ((avgOf [150, 300] : ℚ) = 0 → scenarioS.avg_price_change_pct = 0) ∧
      ((avgOf [150, 300] : ℚ) ≠ 0 →
        scenarioS.avg_price_change_pct
          = pyRound1 ((avgOf (todayPrices scenarioL) - avgOf [150, 300]) / avgOf [150, 300] * 100))) ∧
    (emptySummary.avg_price_change = emptySummary.avg_price ∧
      emptySummary.avg_price_change_pct = 0 ∧
      emptySummary.new_listings = (todayIds ([] : List Listing)).card ∧
      emptySummary.removed_listings = 0) :=
  ⟨summary_pct_guard.2 "2026-10-12" "c1" "A1" scenarioL scenarioR scenarioS [150, 300]
      computeSummary_scenario (by decide),
    summary_pct_guard.1 "2026-10-12" "c1" "A1" [] emptySummary computeSummary_empty⟩

/-- C8: `avg_price`, `min_price` and `lowest_listing` depend only on
the positive-price sub-list of today's listings — adding or removing
zero-price listings anywhere leaves them unchanged; when no
positive-price listing exists they degrade to `0`, `0` and `""`; and
the listing the description is built from is exactly the first-seen
strictly-cheapest positive-price listing (`lowestOf = leftmostMin` of
the positive sub-list, earlier listing winning ties). -/
theorem summary_zero_price_invariant :
    ∀ (t cid tt : String) (ls ls' : List Listing) (rows : List PersistedRow)
      (s s' : ComplexSummary),
      computeSummary t cid tt ls rows = some s →
      computeSummary t cid tt ls' rows = some s' →
      (filterPos ls = filterPos ls' →
        s.avg_price = s'.avg_price ∧ s.min_price = s'.min_price ∧
          s.lowest_listing = s'.lowest_listing) ∧
      lowestOf ls = leftmostMin (filterPos ls) ∧
      (filterPos ls = [] →
        s.avg_price = 0 ∧ s.min_price = 0 ∧ s.lowest_listing = "") := by
  intro t cid tt ls ls' rows s s' h h'
  obtain ⟨yp, hy, rfl⟩ := computeSummary_inv _ _ _ _ _ _ h
  obtain ⟨yp', hy', rfl⟩ := computeSummary_inv _ _ _ _ _ _ h'
  refine ⟨?_, lowestOf_eq ls, ?_⟩
  · intro hf
    have htp : todayPrices ls = todayPrices ls' := by
      rw [todayPrices_eq, todayPrices_eq, hf]
    refine ⟨?_, ?_, ?_⟩
    · simp [summaryOf, htp]
    · simp [summaryOf, htp]
    · simp only [summaryOf]
      rw [lowestOf_eq, lowestOf_eq, hf]
  · intro hnil
    have htp : todayPrices ls = [] := by rw [todayPrices_eq, hnil]; rfl
    refine ⟨?_, ?_, ?_⟩
    · simp [summaryOf, htp, avgOf_nil]
    · simp [summaryOf, htp, minOf]
    · simp only [summaryOf]
      rw [lowestOf_eq, hnil]
      rfl

/-- C8 witness: prepending a zero-price listing to the scenario
listings leaves the three price fields unchanged. -/
theorem summary_zero_price_invariant_w :
    (scenarioSZ.avg_price = scenarioS.avg_price ∧
      scenarioSZ.min_price = scenarioS.min_price ∧
      scenarioSZ.lowest_listing = scenarioS.lowest_listing) ∧
    lowestOf scenarioLZ = leftmostMin (filterPos scenarioLZ) :=
  have h := summary_zero_price_invariant "2026-10-12" "c1" "A1" scenarioLZ scenarioL
    scenarioR scenarioSZ scenarioS computeSummary_scenarioZ computeSummary_scenario
  ⟨h.1 (by decide), h.2.1⟩

/-- C9: the empty-id exclusion is asymmetric.  Every today listing's
id — the empty string included — enters today's id set; yesterday's
id set never contains the empty string (rows with a missing, empty or
zero id are filtered out by the truthiness guard), so an empty-id
today listing always counts as new; and a falsy-id yesterday row
leaves yesterday's set and both difference counts unchanged. -/
theorem summary_empty_id_asymmetry :
    ∀ (ls : List Listing) (r : PersistedRow) (rows : List PersistedRow),
      (∀ l ∈ ls, l.listing_id ∈ todayIds ls) ∧
      "" ∉ yesterdayIds rows ∧
      ((∃ l ∈ ls, l.listing_id = "") → "" ∈ todayIds ls \ yesterdayIds rows) ∧
      (truthyOpt r.listing_id = false →
        yesterdayIds (r :: rows) = yesterdayIds rows ∧
        newCount ls (r :: rows) = newCount ls rows ∧
        removedCount ls (r :: rows) = removedCount ls rows) := by
  intro ls r rows
  have hni : "" ∉ yesterdayIds rows := by
    intro hm
    simp only [yesterdayIds, List.mem_toFinset, List.mem_map] at hm
    obtain ⟨r', hr', hstr⟩ := hm
    have ht := (List.mem_filter.mp hr').2
    cases hl : r'.listing_id with
    | none => rw [hl] at ht; simp [truthyOpt] at ht
    | some v =>
      rw [hl] at ht hstr
      simp only [truthyOpt] at ht
      exact truthy_pyStr_ne_empty v (by simpa using ht) (by simpa using hstr)
  refine ⟨?_, hni, ?_, ?_⟩
  · intro l hl
    exact List.mem_toFinset.mpr (List.mem_map.mpr ⟨l, hl, rfl⟩)
  · rintro ⟨l, hl, hid⟩
    exact Finset.mem_sdiff.mpr
      ⟨hid ▸ List.mem_toFinset.mpr (List.mem_map.mpr ⟨l, hl, rfl⟩), hni⟩
  · intro hf
    have he : yesterdayIds (r :: rows) = yesterdayIds rows := by
      simp [yesterdayIds, List.filter_cons, hf]
    exact ⟨he, by simp [newCount, he], by simp [removedCount, he]⟩

/-- C9 witness: an empty-id today listing counts as new against a
yesterday snapshot, and a yesterday row with an empty id changes no
count. -/
theorem summary_empty_id_asymmetry_w :
    "" ∈ todayIds [mkL "" 100] \ yesterdayIds [⟨some (.str "3"), none⟩] ∧
    yesterdayIds (⟨some (.str ""), none⟩ :: [⟨some (.str "3"), none⟩])
      = yesterdayIds [⟨some (.str "3"), none⟩] :=
  have h := summary_empty_id_asymmetry [mkL "" 100] ⟨some (.str ""), none⟩
    [⟨some (.str "3"), none⟩]
  ⟨h.2.2.1 ⟨mkL "" 100, by decide, rfl⟩, (h.2.2.2 (by decide)).1⟩

/-- C10: structural invariants of every successfully returned
summary: identity fields echo the arguments, `total_listings` is the
raw length of today's list, the difference counts are bounded by the
respective input sizes, and the price statistics are non-negative. -/
theorem summary_invariants :
    ∀ (t cid tt : String) (ls : List Listing) (rows : List PersistedRow)
      (s : ComplexSummary),
      computeSummary t cid tt ls rows = some s →
      s.complex_id = cid ∧ s.trade_type = tt ∧
      s.total_listings = ls.length ∧
      0 ≤ s.new_listings ∧ s.new_listings ≤ s.total_listings ∧
      0 ≤ s.removed_listings ∧ s.removed_listings ≤ rows.length ∧
      0 ≤ s.min_price ∧ 0 ≤ s.avg_price := by
  intro t cid tt ls rows s h
  obtain ⟨yp, hy, rfl⟩ := computeSummary_inv _ _ _ _ _ _ h
  refine ⟨rfl, rfl, rfl, Nat.zero_le _, ?_, Nat.zero_le _, ?_, ?_, ?_⟩
  · have h1 : newCount ls rows ≤ (todayIds ls).card :=
      Finset.card_le_card Finset.sdiff_subset
    have h2 : (todayIds ls).card ≤ ls.length := by
      have h3 : (ls.map (·.listing_id)).toFinset.card ≤ (ls.map (·.listing_id)).length := by
        apply List.toFinset_card_le
      simpa [todayIds] using h3
    exact le_trans h1 h2
  · have h1 : removedCount ls rows ≤ (yesterdayIds rows).card :=
      Finset.card_le_card Finset.sdiff_subset
    have h2 : (yesterdayIds rows).card ≤ rows.length := by
      have h3 := List.length_filter_le (fun r => truthyOpt r.listing_id) rows
      have h4 : ((rows.filter (fun r => truthyOpt r.listing_id)).map
          (fun r => ((r.listing_id.getD (CellVal.str "")).pyStr))).toFinset.card
          ≤ ((rows.filter (fun r => truthyOpt r.listing_id)).map
            (fun r => ((r.listing_id.getD (CellVal.str "")).pyStr))).length := by
        apply List.toFinset_card_le
      simp only [List.length_map] at h4
      exact le_trans (by simpa [yesterdayIds] using h4) h3
    exact le_trans h1 h2
  · show 0 ≤ minOf (todayPrices ls)
    unfold minOf
    cases hm : (todayPrices ls).min? with
    | none => simp
    | some v =>
      have hv : v ∈ todayPrices ls := List.min?_mem (fun a b => min_choice a b) hm
      simpa using le_of_lt (mem_todayPrices_pos ls v hv)
  · show 0 ≤ avgOf (todayPrices ls)
    unfold avgOf
    split_ifs
    · exact le_refl _
    · apply div_nonneg
      · exact_mod_cast List.sum_nonneg
          (fun x hx => le_of_lt (mem_todayPrices_pos ls x hx))
      · exact Nat.cast_nonneg _

/-- C10 witness at the scenario inputs. -/
theorem summary_invariants_w :
    scenarioS.complex_id = "c1" ∧ scenarioS.trade_type = "A1" ∧
    scenarioS.total_listings = scenarioL.length ∧
    0 ≤ scenarioS.new_listings ∧ scenarioS.new_listings ≤ scenarioS.total_listings ∧
    0 ≤ scenarioS.removed_listings ∧ scenarioS.removed_listings ≤ scenarioR.length ∧
    0 ≤ scenarioS.min_price ∧ 0 ≤ scenarioS.avg_price :=
  summary_invariants "2026-10-12" "c1" "A1" scenarioL scenarioR scenarioS
    computeSummary_scenario
